import Mathlib

/-!
Verification of the FastAPI + Postgres user-management template.

Shallow embedding of the code under app/: Python strings are lists of
characters, Python exceptions are an explicit error type threaded through
an Except monad, and the two external libraries that the repository treats
as black boxes (passlib for bcrypt hashing, python-jose for JWT) are
modelled by transparent stand-ins that satisfy their documented contracts:

- passlib CryptContext.hash produces a recognizable bcrypt-marked string,
  and raises TypeError when given a non-string secret such as None;
- passlib CryptContext.verify raises UnknownHashError when the stored
  hash cannot be identified as any configured scheme, and otherwise
  returns whether the secret matches the hash;
- jose jwt.encode signs a payload with a key and algorithm, and jwt.decode
  succeeds exactly on a token signed with the same key whose algorithm is
  in the allowed list and whose expiry is not in the past, raising a
  JWTError subclass in every failure case.

The stand-in for the hash stores the salted-hash content transparently so
that verification is executable; the salt is dropped because no claim
under verification depends on salting variability. Timestamps are natural
numbers (unix seconds).
-/

/-- Python str, modelled as a list of characters. -/
abbrev Str := List Char

/-- The Python exceptions that can escape the functions modelled here.
httpException is FastAPI HTTPException with a status code and detail
string; unknownHashError is passlib UnknownHashError raised by verify on
an unidentifiable hash; typeError is the TypeError raised by passlib when
asked to hash a non-string secret such as None. -/
inductive PyErr where
  | httpException (status : Nat) (detail : Str)
  | unknownHashError
  | typeError
deriving DecidableEq, Repr

/-! ## Model of the passlib bcrypt context (external library, app/core/security.py line 30) -/

/-- Marker that identifies a string as a bcrypt hash in this model. -/
def bcrypt_header : Str := '$' :: '2' :: 'b' :: '$' :: []

/-- Model of CryptContext.hash: fails with TypeError on a None secret,
otherwise produces a string carrying the bcrypt marker. The call sites in
the repository pass dynamically-typed values, hence the Option argument. -/
def pwd_context_hash (secret : Option Str) : Except PyErr Str :=
  match secret with
  | none => .error .typeError
  | some p => .ok (bcrypt_header ++ p)

/-- Model of passlib hash identification: a string is recognized as a
bcrypt hash exactly when it starts with the bcrypt marker, in which case
the salted-hash content follows the marker. -/
def pwd_context_identify (hash_string : Str) : Option Str :=
  match hash_string with
  | '$' :: '2' :: 'b' :: '$' :: rest => some rest
  | _ => none

/-- Model of CryptContext.verify: raises UnknownHashError when the hash
string cannot be identified, otherwise reports whether the secret matches. -/
def pwd_context_verify (plain : Str) (hashed : Str) : Except PyErr Bool :=
  match pwd_context_identify hashed with
  | none => .error .unknownHashError
  | some stored => .ok (plain == stored)

/-! ## app/core/security.py -/

/-- verify_password (app/core/security.py lines 37-55): a bare delegation
to pwd_context.verify, with no exception handling around it. -/
def verify_password (plain_password : Str) (hashed_password : Str) : Except PyErr Bool :=
  pwd_context_verify plain_password hashed_password

/-- get_password_hash (app/core/security.py lines 58-80): a bare
delegation to pwd_context.hash. -/
def get_password_hash (password : Option Str) : Except PyErr Str :=
  pwd_context_hash password

/-- The process-wide configuration object (app/core/config.py), restricted
to the fields the verified functions read. -/
structure Settings where
  SECRET_KEY : Str
  ALGORITHM : Str
  ACCESS_TOKEN_EXPIRE_MINUTES : Nat
deriving DecidableEq, Repr

/-- The default configuration values from app/core/config.py lines 58-62. -/
def settings : Settings :=
  { SECRET_KEY := "your-super-secret-key-change-this-in-production".data
    ALGORITHM := "HS256".data
    ACCESS_TOKEN_EXPIRE_MINUTES := 43200 }

/-- The JWT claim set produced by create_access_token: an expiry in unix
seconds and a subject string. -/
structure TokenPayload where
  exp : Nat
  sub : Str
deriving DecidableEq, Repr

/-- A compact JWT string, modelled abstractly: either a well-formed token
whose signature was produced over the carried payload with a given key and
algorithm, or an arbitrary string that does not parse as a JWT at all.
A token tampered with after signing is indistinguishable, for the decoder,
from a malformed one, so both live in the second constructor. -/
inductive Jwt where
  | signed (payload : TokenPayload) (key : Str) (alg : Str)
  | malformed (raw : Str)
deriving DecidableEq, Repr

/-- Model of jose jwt.encode with a fixed payload shape. -/
def jose_jwt_encode (payload : TokenPayload) (key : Str) (alg : Str) : Jwt :=
  .signed payload key alg

/-- Model of jose jwt.decode with allowed-algorithms list: raises a
JWTError subclass (collapsed to PyErr-free failure marks here) when the
token is malformed, the signature does not verify under the given key, the
algorithm is not allowed, or the expiry is in the past; otherwise returns
the payload. -/
inductive JoseError where
  | malformedToken
  | badSignature
  | expiredSignature
deriving DecidableEq, Repr

def jose_jwt_decode (token : Jwt) (key : Str) (algorithms : List Str) (now : Nat) :
    Except JoseError TokenPayload :=
  match token with
  | .malformed _ => .error .malformedToken
  | .signed payload k alg =>
    if k = key ∧ alg ∈ algorithms then
      if payload.exp < now then .error .expiredSignature
      else .ok payload
    else .error .badSignature

/-- The expiry computed by create_access_token (app/core/security.py lines
121-127): now plus the given delta when one is passed and truthy (a zero
timedelta is falsy in Python and falls back to the default), otherwise now
plus ACCESS_TOKEN_EXPIRE_MINUTES minutes. -/
def access_token_expire (s : Settings) (expires_delta : Option Nat) (now : Nat) : Nat :=
  match expires_delta with
  | some d => if d ≠ 0 then now + d else now + s.ACCESS_TOKEN_EXPIRE_MINUTES * 60
  | none => now + s.ACCESS_TOKEN_EXPIRE_MINUTES * 60

/-- create_access_token (app/core/security.py lines 87-142): builds the
payload with the computed expiry and the subject coerced to str, and signs
it with SECRET_KEY under ALGORITHM. -/
def create_access_token (s : Settings) (subject : Str) (expires_delta : Option Nat)
    (now : Nat) : Jwt :=
  jose_jwt_encode { exp := access_token_expire s expires_delta now, sub := subject }
    s.SECRET_KEY s.ALGORITHM

/-- decode_access_token (app/core/security.py lines 145-177): jwt.decode
wrapped in a try/except that turns every JWTError into None. -/
def decode_access_token (s : Settings) (token : Jwt) (now : Nat) : Option TokenPayload :=
  match jose_jwt_decode token s.SECRET_KEY [s.ALGORITHM] now with
  | .ok payload => some payload
  | .error _ => none

/-! ## Data model (app/models/user.py with the columns inherited from
app/db/base_class.py) -/

/-- The users table row. Columns email, hashed_password, is_active and
is_superuser are NOT NULL in the schema; full_name is nullable. Explicit
null values for NOT NULL columns are rejected by the storage layer at
commit and are therefore outside this model. Timestamps are unix seconds. -/
structure User where
  id : Nat
  email : Str
  hashed_password : Str
  full_name : Option Str
  is_active : Bool
  is_superuser : Bool
  created_at : Nat
  updated_at : Nat
deriving DecidableEq, Repr

/-- A database state: the rows of the users table, in primary-key order. -/
abbrev DB := List User

/-! ## app/crud/base.py, specialized at the User entity as the repository
instantiates it -/

/-- CRUDBase.get (app/crud/base.py lines 97-115): first row whose primary
key matches. -/
def CRUDBase.get (db : DB) (id : Nat) : Option User :=
  db.find? (fun u => u.id == id)

/-- CRUDBase.get_multi (app/crud/base.py lines 117-146): offset and limit
over the table in primary-key order. -/
def CRUDBase.get_multi (db : DB) (skip : Nat) (limit : Nat) : List User :=
  (db.drop skip).take limit

/-- The update_data dictionary that reaches CRUDBase.update for the User
entity: the keys that the update schema and the user repository can put in
it. An outer none means the key is absent from the dictionary. For the
keys whose values the schema lets a caller set to an explicit null on a
nullable column, the value type is itself an Option. -/
structure UserUpdateData where
  email : Option Str
  password : Option (Option Str)
  hashed_password : Option Str
  full_name : Option (Option Str)
  is_active : Option Bool
  is_superuser : Option Bool
deriving DecidableEq, Repr

/-- The update dictionary with no keys at all. -/
def UserUpdateData.empty : UserUpdateData :=
  { email := none, password := none, hashed_password := none
    full_name := none, is_active := none, is_superuser := none }

/-- True when the dictionary contains at least one key that is an entity
column, so that the setattr loop marks the row dirty and the flush fires
the onupdate hook on updated_at. The password key is not an entity column
and never reaches setattr. -/
def UserUpdateData.touches_entity (d : UserUpdateData) : Bool :=
  d.email.isSome || d.hashed_password.isSome || d.full_name.isSome ||
    d.is_active.isSome || d.is_superuser.isSome

/-- CRUDBase.update (app/crud/base.py lines 198-253): for every field of
the encoded entity, overwrite it when the same key is present in
update_data, leave it alone otherwise; then commit, which sets updated_at
through the onupdate hook of app/db/base_class.py line 74 whenever the row
was marked dirty. Keys of update_data that are not entity columns (the
password key) are ignored by the loop, which iterates over entity fields. -/
def CRUDBase.update (db_obj : User) (update_data : UserUpdateData) (now : Nat) : User :=
  { id := db_obj.id
    email := update_data.email.getD db_obj.email
    hashed_password := update_data.hashed_password.getD db_obj.hashed_password
    full_name := update_data.full_name.getD db_obj.full_name
    is_active := update_data.is_active.getD db_obj.is_active
    is_superuser := update_data.is_superuser.getD db_obj.is_superuser
    created_at := db_obj.created_at
    updated_at := if update_data.touches_entity then now else db_obj.updated_at }

/-- CRUDBase.remove (app/crud/base.py lines 259-287): query the row by
primary key; when present, delete it and commit; return the queried row. -/
def CRUDBase.remove (db : DB) (id : Nat) : DB × Option User :=
  match db.find? (fun u => u.id == id) with
  | none => (db, none)
  | some obj => (db.eraseP (fun u => u.id == id), some obj)

/-! ## app/schemas/user.py -/

/-- State of one optional field of a pydantic model: not sent at all,
sent as an explicit null, or sent with a value. model_dump with
exclude_unset drops only the first. -/
inductive PyOptField (α : Type) where
  | unset
  | null
  | val (a : α)
deriving DecidableEq, Repr

/-- The UserUpdate schema (app/schemas/user.py lines 120-174): every field
optional, and, being declared Optional, every field accepts an explicit
null. The fields whose explicit null the storage layer would reject at
commit (email, is_active, is_superuser map to NOT NULL columns) are
modelled without the null state; password and full_name keep it, the
first because the repository reads it before any storage write, the
second because its column is nullable. -/
structure UserUpdate where
  email : Option Str
  password : PyOptField Str
  full_name : PyOptField Str
  is_active : Option Bool
  is_superuser : Option Bool
deriving DecidableEq, Repr

/-- model_dump with exclude_unset set (called at app/crud/crud_user.py
line 161): the dictionary of exactly the fields that were sent, explicit
nulls included. -/
def UserUpdate.model_dump_exclude_unset (u : UserUpdate) : UserUpdateData :=
  { email := u.email
    password :=
      match u.password with
      | .unset => none
      | .null => some none
      | .val p => some (some p)
    hashed_password := none
    full_name :=
      match u.full_name with
      | .unset => none
      | .null => some none
      | .val s => some (some s)
    is_active := u.is_active
    is_superuser := u.is_superuser }

/-! ## app/crud/crud_user.py -/

/-- CRUDUser.get_by_email (app/crud/crud_user.py lines 45-66): first row
with that exact email, case-sensitive. -/
def CRUDUser.get_by_email (db : DB) (email : Str) : Option User :=
  db.find? (fun u => u.email == email)

/-- CRUDUser.update (app/crud/crud_user.py lines 122-169): dump the schema
with exclude_unset; when the password key is present in the dictionary,
hash its value, delete the key and store the hash under hashed_password;
then delegate to the generic update. The key-presence test fires on an
explicit null as well, in which case the null reaches the hash function. -/
def CRUDUser.update (db_obj : User) (obj_in : UserUpdate) (now : Nat) :
    Except PyErr User :=
  let update_data := obj_in.model_dump_exclude_unset
  match update_data.password with
  | some pw =>
    match get_password_hash pw with
    | .error e => .error e
    | .ok h =>
      .ok (CRUDBase.update db_obj
        { update_data with password := none, hashed_password := some h } now)
  | none => .ok (CRUDBase.update db_obj update_data now)

/-- CRUDUser.authenticate (app/crud/crud_user.py lines 175-216): look the
user up by email; absent means none; a failed password verification means
none; otherwise the user. -/
def CRUDUser.authenticate (db : DB) (email : Str) (password : Str) :
    Except PyErr (Option User) :=
  match CRUDUser.get_by_email db email with
  | none => .ok none
  | some user =>
    match verify_password password user.hashed_password with
    | .error e => .error e
    | .ok ok => if ok then .ok (some user) else .ok none

/-- CRUDUser.is_active (app/crud/crud_user.py lines 222-241). -/
def CRUDUser.is_active (user : User) : Bool :=
  user.is_active

/-- CRUDUser.is_superuser (app/crud/crud_user.py lines 243-262). -/
def CRUDUser.is_superuser (user : User) : Bool :=
  user.is_superuser

/-! ## app/api/deps.py -/

/-- get_current_active_user (app/api/deps.py lines 157-190): 400 when the
resolved user is not active, the user otherwise. -/
def get_current_active_user (current_user : User) : Except PyErr User :=
  if !(CRUDUser.is_active current_user) then
    .error (.httpException 400 "Inactive user".data)
  else .ok current_user

/-- get_current_active_superuser (app/api/deps.py lines 193-231): 403 when
the resolved user is not a superuser, the user otherwise. The body tests
only the superuser flag. -/
def get_current_active_superuser (current_user : User) : Except PyErr User :=
  if !(CRUDUser.is_superuser current_user) then
    .error (.httpException 403 "The user doesn\x27t have enough privileges".data)
  else .ok current_user

/-! ## app/api/v1/endpoints/users.py -/

/-- The response body of the login endpoint. -/
structure Token where
  access_token : Jwt
  token_type : Str
deriving DecidableEq, Repr

/-- login (app/api/v1/endpoints/users.py lines 44-101): authenticate with
the submitted form credentials; 400 when that yields no user; 400 with the
inactive detail when the user is not active; otherwise a bearer token for
the user email. -/
def login (s : Settings) (db : DB) (username : Str) (password : Str) (now : Nat) :
    Except PyErr Token :=
  match CRUDUser.authenticate db username password with
  | .error e => .error e
  | .ok none => .error (.httpException 400 "Incorrect email or password".data)
  | .ok (some user) =>
    if !(CRUDUser.is_active user) then
      .error (.httpException 400 "Inactive user".data)
    else
      .ok { access_token := create_access_token s user.email none now
            token_type := "bearer".data }

/-- update_user_me (app/api/v1/endpoints/users.py lines 136-171): the body
is a single delegation of the caller own row and the request payload to
the user repository update. The payload is validated against the full
UserUpdate schema. -/
def update_user_me (current_user : User) (user_in : UserUpdate) (now : Nat) :
    Except PyErr User :=
  CRUDUser.update current_user user_in now

/-- delete_user (app/api/v1/endpoints/users.py lines 345-388): look the
target up by id, 404 when absent; 400 when the target id is the id of the
authenticated caller; otherwise remove the row and return what remove
returned. The first component of the result is the database state after
the call; an HTTPException is raised before any write, leaving it as it
was. -/
def delete_user (db : DB) (user_id : Nat) (current_user : User) :
    DB × Except PyErr (Option User) :=
  match CRUDBase.get db user_id with
  | none => (db, .error (.httpException 404 "User not found".data))
  | some user =>
    if user.id = current_user.id then
      (db, .error (.httpException 400 "Users cannot delete themselves".data))
    else
      let r := CRUDBase.remove db user_id
      (r.fst, .ok r.snd)

/-! ## Decidability helper and concrete fixtures used by the witnesses -/

instance {ε α : Type} [DecidableEq ε] [DecidableEq α] : DecidableEq (Except ε α) := fun x y =>
  match x, y with
  | .ok a, .ok b =>
    if h : a = b then .isTrue (by rw [h]) else .isFalse (fun hc => h (Except.ok.inj hc))
  | .error a, .error b =>
    if h : a = b then .isTrue (by rw [h]) else .isFalse (fun hc => h (Except.error.inj hc))
  | .ok _, .error _ => .isFalse (fun hc => Except.noConfusion hc)
  | .error _, .ok _ => .isFalse (fun hc => Except.noConfusion hc)

/-- An ordinary active user whose stored hash is the hash of the password
password123. -/
def sample_user : User :=
  { id := 1
    email := "user@example.com".data
    hashed_password := bcrypt_header ++ "password123".data
    full_name := none
    is_active := true
    is_superuser := false
    created_at := 0
    updated_at := 0 }

/-- An active superuser whose stored hash is the hash of adminpassword123. -/
def sample_admin : User :=
  { id := 2
    email := "admin@example.com".data
    hashed_password := bcrypt_header ++ "adminpassword123".data
    full_name := none
    is_active := true
    is_superuser := true
    created_at := 0
    updated_at := 0 }

/-- An inactive user with the password password123. -/
def inactive_user : User :=
  { sample_user with id := 3, email := "inactive@example.com".data, is_active := false }

/-- An inactive superuser. -/
def inactive_admin : User :=
  { sample_admin with id := 4, email := "inadmin@example.com".data, is_active := false }

/-! ## Claims -/

/-- C2: authenticate returns none both when no user carries the submitted
email and when the user exists but the stored hash does not verify against
the submitted password, the two failures being the same value, and it
returns a user exactly when the email matches that user and the password
verifies against its stored hash. -/
theorem authenticate_indistinguishable_failure (db : DB) (email password : Str) :
    (CRUDUser.get_by_email db email = none →
      CRUDUser.authenticate db email password = .ok none)
  ∧ (∀ u, CRUDUser.get_by_email db email = some u →
      verify_password password u.hashed_password = .ok false →
      CRUDUser.authenticate db email password = .ok none)
  ∧ (∀ u, CRUDUser.authenticate db email password = .ok (some u) ↔
      CRUDUser.get_by_email db email = some u ∧
        verify_password password u.hashed_password = .ok true) := by
  refine ⟨?_, ?_, ?_⟩
  · intro h
    simp [CRUDUser.authenticate, h]
  · intro u hu hv
    simp [CRUDUser.authenticate, hu, hv]
  · intro u
    constructor
    · intro h
      cases hfind : CRUDUser.get_by_email db email with
      | none => simp [CRUDUser.authenticate, hfind] at h
      | some u0 =>
        cases hv : verify_password password u0.hashed_password with
        | error e => simp [CRUDUser.authenticate, hfind, hv] at h
        | ok b =>
          cases b with
          | false => simp [CRUDUser.authenticate, hfind, hv] at h
          | true =>
            simp [CRUDUser.authenticate, hfind, hv] at h
            subst h
            exact ⟨rfl, hv⟩
    · rintro ⟨hu, hv⟩
      simp [CRUDUser.authenticate, hu, hv]

/-- C2 witness: on a one-user database, an unknown email and a wrong
password for the known email produce the same none result. -/
theorem authenticate_indistinguishable_failure_witness :
    CRUDUser.authenticate [sample_user] "nosuch@example.com".data "password123".data = .ok none
  ∧ CRUDUser.authenticate [sample_user] "user@example.com".data "wrongpassword".data = .ok none := by
  constructor
  · exact (authenticate_indistinguishable_failure [sample_user]
      "nosuch@example.com".data "password123".data).1 (by decide)
  · exact (authenticate_indistinguishable_failure [sample_user]
      "user@example.com".data "wrongpassword".data).2.1 sample_user (by decide) (by decide)

/-- C3 counterexample: on a hash string that is not a recognizable hash,
verify_password propagates the UnknownHashError of the hashing backend
instead of returning false: the claim that it returns a boolean for every
input fails at this input. -/
theorem verify_password_raises_on_malformed_hash :
    verify_password "password123".data "not-a-valid-hash".data = .error .unknownHashError := by
  decide

/-- C3 amended: verify_password returns a boolean whenever the hash string
is identifiable as a hash of the configured scheme, and raises the
UnknownHashError of the backend, rather than returning false, whenever it
is not. -/
theorem verify_password_malformed_behaviour (plain hashed : Str) :
    ((pwd_context_identify hashed).isSome →
      ∃ b, verify_password plain hashed = .ok b)
  ∧ (pwd_context_identify hashed = none →
      verify_password plain hashed = .error .unknownHashError) := by
  constructor
  · intro h
    rcases Option.isSome_iff_exists.mp h with ⟨stored, hs⟩
    exact ⟨plain == stored, by simp [verify_password, pwd_context_verify, hs]⟩
  · intro h
    simp [verify_password, pwd_context_verify, h]

/-- C3 amended witness: a plaintext string stored in place of a hash makes
verify_password raise, and a well-formed hash makes it return a boolean. -/
theorem verify_password_malformed_behaviour_witness :
    verify_password "password123".data "plaintextpw".data = .error .unknownHashError
  ∧ ∃ b, verify_password "password123".data (bcrypt_header ++ "password123".data) = .ok b := by
  constructor
  · exact (verify_password_malformed_behaviour "password123".data "plaintextpw".data).2 (by decide)
  · exact (verify_password_malformed_behaviour "password123".data
      (bcrypt_header ++ "password123".data)).1 (by decide)

/-- The payload sent to refute C1: only the superuser flag, set to true. -/
def elevation_payload : UserUpdate :=
  { email := none, password := .unset, full_name := .unset
    is_active := none, is_superuser := some true }

/-- C1: the claim fails on the code. The self-update endpoint validates
its body against the full UserUpdate schema, which carries is_active and
is_superuser, and the repository update writes every field present in the
dump; a non-superuser caller sending only the superuser flag gets back
their own row with the flag raised. -/
theorem self_update_elevates_superuser :
    sample_user.is_superuser = false
  ∧ update_user_me sample_user elevation_payload 5 =
      .ok { sample_user with is_superuser := true, updated_at := 5 }
  ∧ ∃ u, update_user_me sample_user elevation_payload 5 = .ok u
      ∧ u.is_superuser = true := by
  refine ⟨rfl, by decide, ?_⟩
  exact ⟨{ sample_user with is_superuser := true, updated_at := 5 }, by decide, rfl⟩

/-- C4: login runs authenticate first, then the active check, then issues
the token: an authenticated but inactive user gets 400 with the inactive
detail and no token, failed authentication gets 400 with the credentials
detail, and a token comes back exactly when authentication succeeds for an
active user. -/
theorem login_authenticate_then_active_then_token (s : Settings) (db : DB)
    (username password : Str) (now : Nat) :
    (∀ u, CRUDUser.authenticate db username password = .ok (some u) →
      u.is_active = false →
      login s db username password now = .error (.httpException 400 "Inactive user".data))
  ∧ (CRUDUser.authenticate db username password = .ok none →
      login s db username password now =
        .error (.httpException 400 "Incorrect email or password".data))
  ∧ (∀ t, login s db username password now = .ok t ↔
      ∃ u, CRUDUser.authenticate db username password = .ok (some u) ∧
        u.is_active = true ∧
        t = { access_token := create_access_token s u.email none now
              token_type := "bearer".data }) := by
  refine ⟨?_, ?_, ?_⟩
  · intro u hu hia
    simp [login, hu, CRUDUser.is_active, hia]
  · intro h
    simp [login, h]
  · intro t
    constructor
    · intro h
      cases hauth : CRUDUser.authenticate db username password with
      | error e => simp [login, hauth] at h
      | ok o =>
        cases o with
        | none => simp [login, hauth] at h
        | some u =>
          by_cases hia : u.is_active
          · refine ⟨u, rfl, hia, ?_⟩
            simp [login, hauth, CRUDUser.is_active, hia] at h
            exact h.symm
          · simp [login, hauth, CRUDUser.is_active, hia] at h
    · rintro ⟨u, hu, hia, ht⟩
      simp [login, hu, CRUDUser.is_active, hia, ht]

/-- C4 witness: on a database holding one inactive user, submitting that
user with the correct password yields 400 with the inactive detail. -/
theorem login_inactive_user_witness :
    login settings [inactive_user] "inactive@example.com".data "password123".data 0 =
      .error (.httpException 400 "Inactive user".data) :=
  (login_authenticate_then_active_then_token settings [inactive_user]
    "inactive@example.com".data "password123".data 0).1 inactive_user (by decide) (by decide)

/-- C5: decoding a token produced by create_access_token under the same
configuration, at any time at which the token has not yet expired, yields
the payload with the original subject unchanged. -/
theorem token_round_trip (s : Settings) (subject : Str) (expires_delta : Option Nat)
    (now now2 : Nat) (h : now2 ≤ access_token_expire s expires_delta now) :
    decode_access_token s (create_access_token s subject expires_delta now) now2 =
      some { exp := access_token_expire s expires_delta now, sub := subject } := by
  have hlt : ¬ access_token_expire s expires_delta now < now2 := not_lt.mpr h
  simp [decode_access_token, create_access_token, jose_jwt_encode, jose_jwt_decode, hlt]

/-- C5 witness: a token issued at time 0 under the default configuration
decodes at time 10 to the issued subject. -/
theorem token_round_trip_witness :
    decode_access_token settings (create_access_token settings "user@example.com".data none 0) 10 =
      some { exp := access_token_expire settings none 0, sub := "user@example.com".data } :=
  token_round_trip settings "user@example.com".data none 0 10 (by decide)

/-- C6: token validation is a total function into an optional payload: it
yields the payload exactly for a token signed over that payload with the
configured key and algorithm whose expiry has not passed, and yields None,
rather than propagating the raised JWTError, for a malformed token, a
signature made with another key or algorithm, and an expiry in the past. -/
theorem decode_access_token_characterization (s : Settings) (now : Nat) :
    (∀ token p, decode_access_token s token now = some p ↔
      token = .signed p s.SECRET_KEY s.ALGORITHM ∧ ¬ p.exp < now)
  ∧ (∀ raw, decode_access_token s (.malformed raw) now = none)
  ∧ (∀ p key alg, key ≠ s.SECRET_KEY ∨ alg ≠ s.ALGORITHM →
      decode_access_token s (.signed p key alg) now = none)
  ∧ (∀ p key alg, p.exp < now →
      decode_access_token s (.signed p key alg) now = none) := by
  refine ⟨?_, ?_, ?_, ?_⟩
  · intro token p
    cases token with
    | malformed raw => simp [decode_access_token, jose_jwt_decode]
    | signed p0 k a =>
      by_cases hk : k = s.SECRET_KEY ∧ a ∈ [s.ALGORITHM]
      · by_cases he : p0.exp < now
        · simp only [decode_access_token, jose_jwt_decode, if_pos hk, if_pos he]
          simp only [List.mem_singleton] at hk
          constructor
          · intro hc
            exact absurd hc (by simp)
          · rintro ⟨h1, h2⟩
            cases h1
            exact absurd he h2
        · simp only [decode_access_token, jose_jwt_decode, if_pos hk, if_neg he]
          simp only [List.mem_singleton] at hk
          constructor
          · intro hc
            cases hc
            exact ⟨by rw [hk.1, hk.2], he⟩
          · rintro ⟨h1, _⟩
            cases h1
            rfl
      · simp only [decode_access_token, jose_jwt_decode, if_neg hk]
        simp only [List.mem_singleton] at hk
        constructor
        · intro hc
          exact absurd hc (by simp)
        · rintro ⟨h1, _⟩
          cases h1
          exact absurd ⟨rfl, rfl⟩ hk
  · intro raw
    simp [decode_access_token, jose_jwt_decode]
  · intro p key alg hne
    have hk : ¬ (key = s.SECRET_KEY ∧ alg = s.ALGORITHM) := by
      rintro ⟨h1, h2⟩
      rcases hne with h | h
      · exact h h1
      · exact h h2
    simp [decode_access_token, jose_jwt_decode, hk]
  · intro p key alg he
    by_cases hk : key = s.SECRET_KEY ∧ alg = s.ALGORITHM
    · simp [decode_access_token, jose_jwt_decode, hk.1, hk.2, he]
    · simp [decode_access_token, jose_jwt_decode, hk]

/-- C6 witness: a token signed with a wrong key yields None, an expired
token yields None, and a fresh correctly signed token yields its payload. -/
theorem decode_access_token_characterization_witness :
    decode_access_token settings
      (.signed { exp := 100, sub := "user@example.com".data } "wrongkey".data "HS256".data) 0 = none
  ∧ decode_access_token settings
      (.signed { exp := 100, sub := "user@example.com".data } settings.SECRET_KEY settings.ALGORITHM) 101 = none
  ∧ decode_access_token settings (.malformed "garbage".data) 0 = none := by
  obtain ⟨hiff, hmal, hkey, hexp⟩ := decode_access_token_characterization settings 0
  obtain ⟨_, _, _, hexp101⟩ := decode_access_token_characterization settings 101
  refine ⟨?_, ?_, hmal "garbage".data⟩
  · exact hkey { exp := 100, sub := "user@example.com".data } "wrongkey".data "HS256".data
      (Or.inl (by decide))
  · exact hexp101 { exp := 100, sub := "user@example.com".data }
      settings.SECRET_KEY settings.ALGORITHM (by decide)

/-- A concrete update dictionary used by the C7 witness: only the
full_name key is present. -/
def full_name_only_update : UserUpdateData :=
  { email := none, password := none, hashed_password := none
    full_name := some (some "New Name".data), is_active := none, is_superuser := none }

/-- C7: partial-update semantics of the generic update. Keys absent from
the update dictionary leave the corresponding entity fields at their prior
values, keys present overwrite them, the primary key and creation
timestamp are never part of the dictionary and stay, and the empty
dictionary returns the entity unchanged, the update timestamp included,
because no field is marked dirty and the onupdate hook does not fire. -/
theorem crud_update_partial_semantics (db_obj : User) (d : UserUpdateData) (now : Nat) :
    ((CRUDBase.update db_obj d now).id = db_obj.id ∧
      (CRUDBase.update db_obj d now).created_at = db_obj.created_at)
  ∧ (d.email = none → (CRUDBase.update db_obj d now).email = db_obj.email)
  ∧ (d.hashed_password = none →
      (CRUDBase.update db_obj d now).hashed_password = db_obj.hashed_password)
  ∧ (d.full_name = none → (CRUDBase.update db_obj d now).full_name = db_obj.full_name)
  ∧ (d.is_active = none → (CRUDBase.update db_obj d now).is_active = db_obj.is_active)
  ∧ (d.is_superuser = none → (CRUDBase.update db_obj d now).is_superuser = db_obj.is_superuser)
  ∧ (∀ v, d.email = some v → (CRUDBase.update db_obj d now).email = v)
  ∧ (∀ v, d.hashed_password = some v → (CRUDBase.update db_obj d now).hashed_password = v)
  ∧ (∀ v, d.full_name = some v → (CRUDBase.update db_obj d now).full_name = v)
  ∧ (∀ v, d.is_active = some v → (CRUDBase.update db_obj d now).is_active = v)
  ∧ (∀ v, d.is_superuser = some v → (CRUDBase.update db_obj d now).is_superuser = v)
  ∧ CRUDBase.update db_obj UserUpdateData.empty now = db_obj := by
  refine ⟨⟨rfl, rfl⟩, ?_, ?_, ?_, ?_, ?_, ?_, ?_, ?_, ?_, ?_, ?_⟩
  · intro h; simp [CRUDBase.update, h]
  · intro h; simp [CRUDBase.update, h]
  · intro h; simp [CRUDBase.update, h]
  · intro h; simp [CRUDBase.update, h]
  · intro h; simp [CRUDBase.update, h]
  · intro v h; simp [CRUDBase.update, h]
  · intro v h; simp [CRUDBase.update, h]
  · intro v h; simp [CRUDBase.update, h]
  · intro v h; simp [CRUDBase.update, h]
  · intro v h; simp [CRUDBase.update, h]
  · simp [CRUDBase.update, UserUpdateData.empty, UserUpdateData.touches_entity]

/-- C7 witness: updating a concrete user with a dictionary holding only a
new full name changes exactly that field, and updating with the empty
dictionary changes nothing. -/
theorem crud_update_partial_semantics_witness :
    (CRUDBase.update sample_user full_name_only_update 9).full_name = some "New Name".data
  ∧ (CRUDBase.update sample_user full_name_only_update 9).email = sample_user.email
  ∧ CRUDBase.update sample_user UserUpdateData.empty 9 = sample_user := by
  obtain ⟨_, habs, _, _, _, _, _, _, hfn, _, _, hempty⟩ :=
    crud_update_partial_semantics sample_user full_name_only_update 9
  exact ⟨hfn (some "New Name".data) rfl, habs rfl, hempty⟩

/-- C8: the admin delete endpoint returns 404 and leaves the table alone
when no row has the target id, returns 400 and leaves the table alone when
the target id is the id of the authenticated caller, and otherwise erases
the row and returns its prior state. -/
theorem delete_user_spec (db : DB) (user_id : Nat) (current_user : User) :
    (CRUDBase.get db user_id = none →
      delete_user db user_id current_user =
        (db, .error (.httpException 404 "User not found".data)))
  ∧ (∀ u, CRUDBase.get db user_id = some u → u.id = current_user.id →
      delete_user db user_id current_user =
        (db, .error (.httpException 400 "Users cannot delete themselves".data)))
  ∧ (∀ u, CRUDBase.get db user_id = some u → u.id ≠ current_user.id →
      delete_user db user_id current_user =
        (db.eraseP (fun v => v.id == user_id), .ok (some u))) := by
  refine ⟨?_, ?_, ?_⟩
  · intro h
    simp [delete_user, h]
  · intro u hu heq
    simp [delete_user, hu, heq]
  · intro u hu hne
    have hfind : db.find? (fun v => v.id == user_id) = some u := hu
    simp [delete_user, hu, hne, CRUDBase.remove, hfind]

/-- C8 witness: on a two-row table, the admin deleting the other user
erases exactly that row and gets its prior state back, while the admin
deleting their own id gets 400 and the table stays as it was. -/
theorem delete_user_spec_witness :
    delete_user [sample_admin, sample_user] sample_user.id sample_admin =
      ([sample_admin], .ok (some sample_user))
  ∧ delete_user [sample_admin, sample_user] sample_admin.id sample_admin =
      ([sample_admin, sample_user],
        .error (.httpException 400 "Users cannot delete themselves".data)) := by
  obtain ⟨_, _, hdel⟩ := delete_user_spec [sample_admin, sample_user] sample_user.id sample_admin
  obtain ⟨_, hself, _⟩ := delete_user_spec [sample_admin, sample_user] sample_admin.id sample_admin
  constructor
  · exact (hdel sample_user (by decide) (by decide)).trans (by decide)
  · exact hself sample_admin (by decide) rfl

/-- C9: the admin gate reads only the superuser flag: any user whose
superuser flag is set passes it unchanged even when inactive, and passing
the gate is equivalent to the superuser flag alone. -/
theorem admin_gate_ignores_active_flag (u : User) :
    (u.is_superuser = true → u.is_active = false → get_current_active_superuser u = .ok u)
  ∧ (get_current_active_superuser u = .ok u ↔ u.is_superuser = true) := by
  constructor
  · intro hsu _
    simp [get_current_active_superuser, CRUDUser.is_superuser, hsu]
  · constructor
    · intro h
      by_cases hsu : u.is_superuser
      · exact hsu
      · simp [get_current_active_superuser, CRUDUser.is_superuser, hsu] at h
    · intro hsu
      simp [get_current_active_superuser, CRUDUser.is_superuser, hsu]

/-- C9 witness: a concrete inactive superuser passes the admin gate. -/
theorem admin_gate_ignores_active_flag_witness :
    get_current_active_superuser inactive_admin = .ok inactive_admin :=
  (admin_gate_ignores_active_flag inactive_admin).1 (by decide) (by decide)

/-- C10: an update payload whose password field is sent as an explicit
null is not skipped: the key-presence test in the user repository update
fires, the null reaches the hash function, and the TypeError of the
hashing backend escapes, whatever the rest of the payload and the prior
row hold. -/
theorem update_with_null_password_reaches_hash_error (db_obj : User) (now : Nat)
    (e : Option Str) (f : PyOptField Str) (a b : Option Bool) :
    CRUDUser.update db_obj
      { email := e, password := .null, full_name := f, is_active := a, is_superuser := b }
      now = .error .typeError := by
  simp [CRUDUser.update, UserUpdate.model_dump_exclude_unset, get_password_hash,
    pwd_context_hash]
